import Mathlib

/-!
Verification of the nucleux reactive state container kernel.

The definitions below are a shallow embedding of the TypeScript sources:
`Atom` (src/Atom.ts), `Store` (src/Store.ts), `Container` (src/Container.ts),
and `getStoreProxy` (src/utils.ts).  JavaScript `Map`s are modelled as
association lists with `Map.set` replace-or-append semantics, JavaScript
exceptions as `Except String`, and the (possibly synchronous) storage adapter
calls as `Except`-returning functions.  `console.error` / `console.warn`
output is reified as `LogEntry` values.
-/

set_option autoImplicit false

namespace Nucleux

/-! ### Association lists modelling JavaScript `Map` -/

/-- `Map.get`: first value bound to `k`, if any. -/
def alookup {κ α : Type} [DecidableEq κ] : List (κ × α) → κ → Option α
  | [], _ => none
  | (k', v) :: rest, k => if k' = k then some v else alookup rest k

/-- `Map.set`: replace the binding of `k` in place if present, append otherwise. -/
def setEntry {κ α : Type} [DecidableEq κ] : List (κ × α) → κ → α → List (κ × α)
  | [], k, v => [(k, v)]
  | (k', v') :: rest, k, v =>
    if k' = k then (k, v) :: rest else (k', v') :: setEntry rest k v

/-- `Map.delete`: remove the binding of `k`. -/
def eraseEntry {κ α : Type} [DecidableEq κ] : List (κ × α) → κ → List (κ × α)
  | [], _ => []
  | (k', v') :: rest, k =>
    if k' = k then eraseEntry rest k else (k', v') :: eraseEntry rest k

theorem alookup_setEntry_self {κ α : Type} [DecidableEq κ]
    (l : List (κ × α)) (k : κ) (v : α) : alookup (setEntry l k v) k = some v := by
  induction l with
  | nil => simp [alookup, setEntry]
  | cons hd tl ih =>
    by_cases h : hd.1 = k
    · simp [alookup, setEntry, h]
    · simp [alookup, setEntry, h, ih]

theorem alookup_setEntry_ne {κ α : Type} [DecidableEq κ]
    (l : List (κ × α)) (k k' : κ) (v : α) (h : k ≠ k') :
    alookup (setEntry l k v) k' = alookup l k' := by
  induction l with
  | nil => simp [alookup, setEntry, h]
  | cons hd tl ih =>
    by_cases hh : hd.1 = k
    · simp [alookup, setEntry, hh, h]
    · simp [alookup, setEntry, hh, ih]

theorem alookup_eraseEntry_self {κ α : Type} [DecidableEq κ]
    (l : List (κ × α)) (k : κ) : alookup (eraseEntry l k) k = none := by
  induction l with
  | nil => simp [alookup, eraseEntry]
  | cons hd tl ih =>
    by_cases h : hd.1 = k
    · simp [alookup, eraseEntry, h, ih]
    · simp [alookup, eraseEntry, h, ih]

theorem alookup_eraseEntry_ne {κ α : Type} [DecidableEq κ]
    (l : List (κ × α)) (k k' : κ) (h : k ≠ k') :
    alookup (eraseEntry l k) k' = alookup l k' := by
  induction l with
  | nil => simp [alookup, eraseEntry]
  | cons hd tl ih =>
    by_cases hh : hd.1 = k
    · simp [alookup, eraseEntry, hh, ih, h]
    · simp [alookup, eraseEntry, hh, ih]

theorem alookup_isSome_of_mem {κ α : Type} [DecidableEq κ]
    (l : List (κ × α)) (k : κ) (v : α) (h : (k, v) ∈ l) :
    (alookup l k).isSome = true := by
  induction l with
  | nil => simp at h
  | cons hd tl ih =>
    rcases List.mem_cons.mp h with heq | hmem
    · simp [alookup, ← heq]
    · by_cases hh : hd.1 = k
      · simp [alookup, hh]
      · simp [alookup, hh, ih hmem]

/-! ### Console output -/

/-- Reified `console.error` / `console.warn` calls of the kernel. -/
inductive LogEntry where
  /-- `console.error` in `hydrate` when the persisted raw value cannot be
      applied (the `catch` around `JSON.parse` and the value assignment). -/
  | errorParse (persistKey : String)
  /-- `console.error` in `reset` when `storage.removeItem` fails. -/
  | errorClear (persistKey : String)
  /-- `console.warn` in `unsubscribe` for an unknown subscription id. -/
  | warnSubscriberNotFound (subId : Nat)
  /-- `console.warn` in the store proxy `set` trap. -/
  | warnProxySet
  /-- `console.warn` in `Container.instantiate` for an existing record. -/
  | warnStoreExists (storeId : Nat)
  /-- `console.warn` in `Container.remove` for a missing record. -/
  | warnStoreMissing (storeId : Nat)
deriving DecidableEq

/-! ### Atom data model (src/Atom.ts) -/

/-- `AtomMemoizationOptions.type`: `'shallow' | 'deep' | 'custom'`. -/
inductive MemoType where
  | shallow
  | deep
  | custom
deriving DecidableEq

/-- `AtomMemoizationOptions<V>`. -/
structure AtomMemoizationOptions (V : Type) where
  type : MemoType
  compare : Option (V → V → Bool)

/-- A storage adapter (`SupportedStorage`).  Each call either returns or
    throws; `Except.error` models a synchronous throw (the default adapter,
    `localStorage`, is synchronous) or, on an `await`ed call, a rejection. -/
structure StorageAdapter where
  getItem : String → Except String (Option String)
  setItem : String → String → Except String Unit
  removeItem : String → Except String Unit

/-- `AtomPersistenceOptions`; `storage := none` means the per-use-site
    default `storage = localStorage` applies. -/
structure AtomPersistenceOptions where
  persistKey : String
  storage : Option StorageAdapter

/-- A subscriber callback.  `arity` is the declared parameter count
    (`callback.length` in the source); `run` is the callback body, which may
    throw (`Except.error`). -/
structure Callback (V : Type) where
  arity : Nat
  run : V → Option V → Except String Unit

/-- `Atom<V>`: `value` and `initialValue` are the private `_value` /
    `_initialValue` fields; `subscribers` is the `Map<string, Subscriber>`. -/
structure Atom (V : Type) where
  value : V
  initialValue : V
  subscribers : List (Nat × Callback V)
  persistence : Option AtomPersistenceOptions
  memoization : Option (AtomMemoizationOptions V)

/-- Host-language operations on the value type `V`: `refEq` is JavaScript
    `===`, `deepEq` is `fast-deep-equal`'s `isEqual`, `isUndef` is
    `=== undefined`, `serialize` / `deserialize` are `JSON.stringify` /
    `JSON.parse` (the latter may throw), `localStorage` is the default
    storage adapter. -/
structure ValOps (V : Type) where
  refEq : V → V → Bool
  deepEq : V → V → Bool
  isUndef : V → Bool
  serialize : V → String
  deserialize : String → Except String V
  localStorage : StorageAdapter

/-- `Atom.shouldSkipUpdate`: chooses the active comparator from the
    memoization options (`this.memoization || { type: 'shallow' }`), with the
    custom comparator falling back to `===` when `compare` is absent. -/
def shouldSkipUpdate {V : Type} (ops : ValOps V) (a : Atom V) (newValue : V) : Bool :=
  match a.memoization with
  | some m =>
    match m.type with
    | MemoType.deep => ops.deepEq newValue a.value
    | MemoType.custom =>
      match m.compare with
      | some cmp => cmp newValue a.value
      | none => ops.refEq newValue a.value
    | MemoType.shallow => ops.refEq newValue a.value
  | none => ops.refEq newValue a.value

/-- Whether an `Except` result is a throw. -/
def isErr {ε α : Type} : Except ε α → Bool
  | Except.error _ => true
  | Except.ok _ => false

/-- The arity dispatch in `notifySubscribers`: a 2-arity callback receives
    `(newValue, previousValue)`, any other arity receives `(newValue)`. -/
def runWithArity {V : Type} (cb : Callback V) (newValue previousValue : V) :
    Except String Unit :=
  if cb.arity = 2 then cb.run newValue (some previousValue)
  else cb.run newValue none

/-- Record of one delivered subscriber invocation: the arguments it was
    called with and whether its exception was caught and logged. -/
structure Notification (V : Type) where
  subId : Nat
  value : V
  previous : Option V
  errorLogged : Bool

/-- One iteration of the `notifySubscribers` loop body: the callback is
    invoked inside its own `try`/`catch`; a throw is logged
    (`console.error('Error in atom subscriber:', ...)`) and absorbed. -/
def invokeGuarded {V : Type} (subId : Nat) (cb : Callback V)
    (newValue previousValue : V) : Notification V :=
  { subId := subId
    value := newValue
    previous := if cb.arity = 2 then some previousValue else none
    errorLogged := isErr (runWithArity cb newValue previousValue) }

/-- `Atom.notifySubscribers`: every subscriber in the map is invoked, each
    inside its own exception guard; the loop itself never throws. -/
def notifySubscribers {V : Type} (subs : List (Nat × Callback V))
    (newValue previousValue : V) : List (Notification V) :=
  subs.map (fun p => invokeGuarded p.1 p.2 newValue previousValue)

/-- Result of one `value` assignment: the updated atom, the attempted
    `storage.setItem` calls (key, serialized payload), the delivered
    notifications, and — because the fire-and-forget `setItem` is *not*
    wrapped in `try`/`catch` — the exception propagated to the assigning
    caller, if any. -/
structure SetOutcome (V : Type) where
  atom : Atom V
  writes : List (String × String)
  notifications : List (Notification V)
  thrown : Option String

/-- The persistence block of the `value` setter — the source's
    `if (newValue !== undefined && this.persistence) { storage.setItem(...) }`
    fire-and-forget call, which is *not* wrapped in `try`/`catch`.  Returns
    the attempted `setItem` calls and the exception the block throws, if
    any. -/
def persistStep {V : Type} (ops : ValOps V) (a : Atom V) (newValue : V) :
    List (String × String) × Option String :=
  match a.persistence with
  | some p =>
    if ops.isUndef newValue then ([], none)
    else
      match (p.storage.getD ops.localStorage).setItem p.persistKey
          (ops.serialize newValue) with
      | Except.error e => ([(p.persistKey, ops.serialize newValue)], some e)
      | Except.ok _ => ([(p.persistKey, ops.serialize newValue)], none)
  | none => ([], none)

/-- `Atom.set value`: skip via `shouldSkipUpdate`; otherwise update `_value`,
    run the unguarded persistence block (`persistStep`) — a synchronous
    throw there propagates to the caller and the subscriber notification
    never runs — and finally notify with `(newValue, previousValue)`. -/
def setValue {V : Type} (ops : ValOps V) (a : Atom V) (newValue : V) : SetOutcome V :=
  if shouldSkipUpdate ops a newValue then
    { atom := a, writes := [], notifications := [], thrown := none }
  else
    match persistStep ops a newValue with
    | (ws, some e) =>
      { atom := { a with value := newValue }, writes := ws
        notifications := [], thrown := some e }
    | (ws, none) =>
      { atom := { a with value := newValue }, writes := ws
        notifications := notifySubscribers a.subscribers newValue a.value
        thrown := none }

/-- Result of `Atom.subscribe`: the updated atom and either the returned
    subscription id or the exception propagated out of an `immediate`
    invocation (which is *not* wrapped in the per-subscriber guard). -/
structure SubscribeOutcome (V : Type) where
  atom : Atom V
  result : Except String Nat

/-- `Atom.subscribe(callback, immediate)`: a fresh id (`nanoid()`, supplied
    here by the caller as `subId`) is mapped to the callback *before* the
    optional immediate invocation `callback(this.value)`; that invocation is
    unguarded, so its exception propagates and the id is never returned. -/
def subscribeA {V : Type} (a : Atom V) (subId : Nat) (cb : Callback V)
    (immediate : Bool) : SubscribeOutcome V :=
  let a' := { a with subscribers := setEntry a.subscribers subId cb }
  if immediate then
    match cb.run a.value none with
    | Except.error e => { atom := a', result := Except.error e }
    | Except.ok _ => { atom := a', result := Except.ok subId }
  else { atom := a', result := Except.ok subId }

/-- Result of `Atom.unsubscribe`. -/
structure UnsubscribeOutcome (V : Type) where
  atom : Atom V
  returned : Bool
  log : List LogEntry

/-- `Atom.unsubscribe(subId)`: unknown ids log a warning and return `false`;
    otherwise the entry is deleted and the `Map.delete` result returned. -/
def unsubscribeA {V : Type} (a : Atom V) (subId : Nat) : UnsubscribeOutcome V :=
  if (alookup a.subscribers subId).isSome then
    { atom := { a with subscribers := eraseEntry a.subscribers subId }
      returned := true, log := [] }
  else
    { atom := a, returned := false, log := [LogEntry.warnSubscriberNotFound subId] }

/-- `AtomResetOptions`: `none` means the field was omitted and the source
    default (`resetValue = true`, `clearPersisted = true`) applies. -/
structure AtomResetOptions where
  resetValue : Option Bool
  clearPersisted : Option Bool

/-- Result of `Atom.reset`: the updated atom, the attempted
    `storage.removeItem` keys, the logged errors, and the notifications. -/
structure ResetOutcome (V : Type) where
  atom : Atom V
  removals : List String
  log : List LogEntry
  notifications : List (Notification V)

/-- `Atom.reset(options)`: optionally clear the persisted entry (the
    `removeItem` is awaited inside `try`/`catch`: failures are logged and do
    not abort the reset), then optionally assign `_initialValue` back and
    notify directly via `notifySubscribers` — bypassing the setter and hence
    the comparator skip-check. -/
def resetA {V : Type} (ops : ValOps V) (a : Atom V)
    (options : AtomResetOptions) : ResetOutcome V :=
  let rv := options.resetValue.getD true
  let cp := options.clearPersisted.getD true
  let cleared : List String × List LogEntry :=
    match a.persistence with
    | some p =>
      if cp then
        match (p.storage.getD ops.localStorage).removeItem p.persistKey with
        | Except.error _ => ([p.persistKey], [LogEntry.errorClear p.persistKey])
        | Except.ok _ => ([p.persistKey], [])
      else ([], [])
    | none => ([], [])
  if rv then
    let previousValue := a.value
    { atom := { a with value := a.initialValue }
      removals := cleared.1, log := cleared.2
      notifications := notifySubscribers a.subscribers a.initialValue previousValue }
  else
    { atom := a, removals := cleared.1, log := cleared.2, notifications := [] }

/-- Result of the asynchronous `hydrate` step.  `rejected` is an exception
    that escaped `hydrate`'s own `try` scope: since the constructor calls
    `hydrate()` fire-and-forget, such an exception only rejects the dangling
    promise — it reaches no caller, and nothing is logged. -/
structure HydrateOutcome (V : Type) where
  atom : Atom V
  writes : List (String × String)
  notifications : List (Notification V)
  log : List LogEntry
  rejected : Option String

/-- JavaScript truthiness of `getItem`'s `string | null` result: only `null`
    and the empty string are falsy. -/
def truthyRaw : Option String → Bool
  | some s => s ≠ ""
  | none => false

/-- `Atom.hydrate` (runs once, asynchronously, from the constructor):
    `getItem` is awaited *outside* any `try`/`catch`, so its failure rejects
    the hydrate promise silently; a truthy raw value is parsed and assigned
    through the normal `value` setter inside a `try`/`catch` that logs; an
    absent value seeds storage with an unguarded fire-and-forget `setItem`. -/
def hydrateA {V : Type} (ops : ValOps V) (a : Atom V) : HydrateOutcome V :=
  match a.persistence with
  | none =>
    { atom := a, writes := [], notifications := [], log := [], rejected := none }
  | some p =>
    match (p.storage.getD ops.localStorage).getItem p.persistKey with
    | Except.error e =>
      { atom := a, writes := [], notifications := [], log := [], rejected := some e }
    | Except.ok raw =>
      if truthyRaw raw then
        match ops.deserialize (raw.getD "") with
        | Except.error _ =>
          { atom := a, writes := [], notifications := []
            log := [LogEntry.errorParse p.persistKey], rejected := none }
        | Except.ok v =>
          match (setValue ops a v).thrown with
          | some _ =>
            { atom := (setValue ops a v).atom, writes := (setValue ops a v).writes
              notifications := (setValue ops a v).notifications
              log := [LogEntry.errorParse p.persistKey], rejected := none }
          | none =>
            { atom := (setValue ops a v).atom, writes := (setValue ops a v).writes
              notifications := (setValue ops a v).notifications
              log := [], rejected := none }
      else
        match (p.storage.getD ops.localStorage).setItem p.persistKey
            (ops.serialize a.value) with
        | Except.error e =>
          { atom := a, writes := [(p.persistKey, ops.serialize a.value)]
            notifications := [], log := [], rejected := some e }
        | Except.ok _ =>
          { atom := a, writes := [(p.persistKey, ops.serialize a.value)]
            notifications := [], log := [], rejected := none }

/-- The synchronous part of the `Atom` constructor: `_value` and
    `_initialValue` are both set to `initialValue`; hydration runs later. -/
def mkAtom {V : Type} (initialValue : V)
    (persistence : Option AtomPersistenceOptions)
    (memoization : Option (AtomMemoizationOptions V)) : Atom V :=
  { value := initialValue
    initialValue := initialValue
    subscribers := []
    persistence := persistence
    memoization := memoization }

/-- A sequence of `value` assignments (dropping the per-assignment effects). -/
def applySets {V : Type} (ops : ValOps V) (a : Atom V) (vs : List V) : Atom V :=
  vs.foldl (fun acc v => (setValue ops acc v).atom) a

/-! ### Basic lemmas about the Atom operations -/

theorem setValue_atom_initialValue {V : Type} (ops : ValOps V) (a : Atom V) (v : V) :
    (setValue ops a v).atom.initialValue = a.initialValue := by
  unfold setValue
  split
  · rfl
  · split <;> rfl

theorem setValue_atom_subscribers {V : Type} (ops : ValOps V) (a : Atom V) (v : V) :
    (setValue ops a v).atom.subscribers = a.subscribers := by
  unfold setValue
  split
  · rfl
  · split <;> rfl

theorem setValue_atom_value {V : Type} (ops : ValOps V) (a : Atom V) (v : V)
    (h : shouldSkipUpdate ops a v = false) :
    (setValue ops a v).atom = { a with value := v } := by
  unfold setValue
  rw [h]
  simp only [Bool.false_eq_true, if_false]
  split <;> rfl

theorem applySets_initialValue {V : Type} (ops : ValOps V) (a : Atom V) (vs : List V) :
    (applySets ops a vs).initialValue = a.initialValue := by
  induction vs generalizing a with
  | nil => rfl
  | cons v rest ih =>
    simp only [applySets, List.foldl_cons]
    simp only [applySets] at ih
    rw [ih, setValue_atom_initialValue]

theorem applySets_subscribers {V : Type} (ops : ValOps V) (a : Atom V) (vs : List V) :
    (applySets ops a vs).subscribers = a.subscribers := by
  induction vs generalizing a with
  | nil => rfl
  | cons v rest ih =>
    simp only [applySets, List.foldl_cons]
    simp only [applySets] at ih
    rw [ih, setValue_atom_subscribers]

/-! ### Lemmas about notification delivery -/

theorem notifySubscribers_map_subId {V : Type} (subs : List (Nat × Callback V))
    (nv pv : V) :
    (notifySubscribers subs nv pv).map Notification.subId = subs.map Prod.fst := by
  simp only [notifySubscribers, List.map_map]
  rfl

theorem notifySubscribers_value_of_mem {V : Type} (subs : List (Nat × Callback V))
    (nv pv : V) (n : Notification V) (h : n ∈ notifySubscribers subs nv pv) :
    n.value = nv := by
  simp only [notifySubscribers, List.mem_map] at h
  obtain ⟨p, _, rfl⟩ := h
  rfl

theorem notifySubscribers_subId_isSome {V : Type} (subs : List (Nat × Callback V))
    (nv pv : V) (n : Notification V) (h : n ∈ notifySubscribers subs nv pv) :
    (alookup subs n.subId).isSome = true := by
  simp only [notifySubscribers, List.mem_map] at h
  obtain ⟨p, hp, rfl⟩ := h
  exact alookup_isSome_of_mem subs p.1 p.2 hp

theorem setValue_eq_of_none {V : Type} (ops : ValOps V) (a : Atom V) (v : V)
    (hskip : shouldSkipUpdate ops a v = false)
    (hw : (persistStep ops a v).2 = none) :
    setValue ops a v =
      { atom := { a with value := v }, writes := (persistStep ops a v).1
        notifications := notifySubscribers a.subscribers v a.value
        thrown := none } := by
  have hpair : persistStep ops a v = ((persistStep ops a v).1, none) := by
    rw [← hw]
  unfold setValue
  rw [hskip]
  simp only [Bool.false_eq_true, if_false]
  rw [hpair]

theorem setValue_eq_of_some {V : Type} (ops : ValOps V) (a : Atom V) (v : V)
    (e : String) (hskip : shouldSkipUpdate ops a v = false)
    (hw : (persistStep ops a v).2 = some e) :
    setValue ops a v =
      { atom := { a with value := v }, writes := (persistStep ops a v).1
        notifications := [], thrown := some e } := by
  have hpair : persistStep ops a v = ((persistStep ops a v).1, some e) := by
    rw [← hw]
  unfold setValue
  rw [hskip]
  simp only [Bool.false_eq_true, if_false]
  rw [hpair]

theorem setValue_notifications_eq {V : Type} (ops : ValOps V) (a : Atom V) (v : V)
    (hskip : shouldSkipUpdate ops a v = false)
    (hthrown : (setValue ops a v).thrown = none) :
    (setValue ops a v).notifications = notifySubscribers a.subscribers v a.value := by
  cases hw : (persistStep ops a v).2 with
  | none => rw [setValue_eq_of_none ops a v hskip hw]
  | some e => rw [setValue_eq_of_some ops a v e hskip hw] at hthrown; simp at hthrown

theorem setValue_notifications_subId {V : Type} (ops : ValOps V) (a : Atom V)
    (v : V) (n : Notification V) (h : n ∈ (setValue ops a v).notifications) :
    (alookup a.subscribers n.subId).isSome = true := by
  by_cases hskip : shouldSkipUpdate ops a v = true
  · unfold setValue at h
    rw [hskip] at h
    simp at h
  · rw [Bool.not_eq_true] at hskip
    cases hw : (persistStep ops a v).2 with
    | none =>
      rw [setValue_eq_of_none ops a v hskip hw] at h
      exact notifySubscribers_subId_isSome _ _ _ _ h
    | some e =>
      rw [setValue_eq_of_some ops a v e hskip hw] at h
      simp at h

/-! ### Concrete fixtures used by witnesses and counterexamples -/

/-- An always-succeeding, initially-empty storage adapter. -/
def memStorage : StorageAdapter :=
  { getItem := fun _ => Except.ok none
    setItem := fun _ _ => Except.ok ()
    removeItem := fun _ => Except.ok () }

/-- An adapter whose every operation throws (e.g. `localStorage` over quota
    or with storage access disabled). -/
def failStorage : StorageAdapter :=
  { getItem := fun _ => Except.error "storage read failed"
    setItem := fun _ _ => Except.error "storage write failed"
    removeItem := fun _ => Except.error "storage delete failed" }

/-- An adapter holding an unparseable raw value under every key. -/
def badReadStorage : StorageAdapter :=
  { getItem := fun _ => Except.ok (some "x")
    setItem := fun _ _ => Except.ok ()
    removeItem := fun _ => Except.ok () }

/-- Host operations for `V := Nat`. -/
def natOps : ValOps Nat :=
  { refEq := fun x y => x == y
    deepEq := fun x y => x == y
    isUndef := fun _ => false
    serialize := fun v => toString v
    deserialize := fun _ => Except.error "parse error"
    localStorage := memStorage }

def atomFive : Atom Nat := mkAtom 5 none none

def failPersist : AtomPersistenceOptions :=
  { persistKey := "k", storage := some failStorage }

def atomPersistFail : Atom Nat := mkAtom 5 (some failPersist) none

def badParsePersist : AtomPersistenceOptions :=
  { persistKey := "k", storage := some badReadStorage }

def atomBadParse : Atom Nat := mkAtom 5 (some badParsePersist) none

/-- A 1-arity callback that always throws. -/
def cbBoom : Callback Nat := { arity := 1, run := fun _ _ => Except.error "boom" }

/-- A 2-arity callback that always succeeds. -/
def cbOkTwo : Callback Nat := { arity := 2, run := fun _ _ => Except.ok () }

def atomZero : Atom Nat := mkAtom 0 none none

/-- An atom with one throwing and one well-behaved subscriber. -/
def atomNoisy : Atom Nat :=
  { value := 0, initialValue := 0
    subscribers := [(1, cbBoom), (2, cbOkTwo)]
    persistence := none, memoization := none }

/-! ### C1 -/

/-- C1: whenever the active comparator (shallow `===` by default, deep
    structural equality, or the custom predicate falling back to `===` when
    absent — i.e. `shouldSkipUpdate`) judges the assigned value equal to the
    current one, the `value` setter leaves the atom unchanged, invokes no
    subscriber, and issues no storage write. -/
theorem setValue_skip_no_effects {V : Type} (ops : ValOps V) (a : Atom V) (v : V)
    (h : shouldSkipUpdate ops a v = true) :
    setValue ops a v =
      { atom := a, writes := [], notifications := [], thrown := none } := by
  unfold setValue
  rw [h]
  simp

/-- C1 witness: assigning the current value `5` to a fresh atom with the
    default shallow comparator is a complete no-op. -/
theorem setValue_skip_no_effects_witness :
    shouldSkipUpdate natOps atomFive 5 = true ∧
    setValue natOps atomFive 5 =
      { atom := atomFive, writes := [], notifications := [], thrown := none } :=
  ⟨by decide, setValue_skip_no_effects natOps atomFive 5 (by decide)⟩

/-! ### C2 -/

/-- C2: `reset` with `resetValue = true` (the default when the option is
    omitted) restores the `initialValue` captured at construction no matter
    which assignments happened in between, and notifies every subscriber
    with the initial value — the comparator skip-check is bypassed, so this
    holds even when the pre-reset value already equals the initial value. -/
theorem reset_restores_initial {V : Type} (ops : ValOps V) (a : Atom V)
    (vs : List V) (options : AtomResetOptions)
    (h : options.resetValue.getD true = true) :
    (resetA ops (applySets ops a vs) options).atom.value = a.initialValue ∧
    (resetA ops (applySets ops a vs) options).notifications.map Notification.subId
        = a.subscribers.map Prod.fst ∧
    (∀ n ∈ (resetA ops (applySets ops a vs) options).notifications,
      n.value = a.initialValue) ∧
    (∀ (i sid : Nat) (cb : Callback V),
      a.subscribers[i]? = some (sid, cb) →
      (resetA ops (applySets ops a vs) options).notifications[i]?
          = some (invokeGuarded sid cb a.initialValue (applySets ops a vs).value)) := by
  have hsubs := applySets_subscribers ops a vs
  have hinit := applySets_initialValue ops a vs
  unfold resetA
  rw [h]
  simp only [if_true]
  rw [hsubs, hinit]
  refine ⟨rfl, ?_, ?_, ?_⟩
  · exact notifySubscribers_map_subId _ _ _
  · intro n hn
    exact notifySubscribers_value_of_mem _ _ _ n hn
  · intro i sid cb hi
    show (notifySubscribers a.subscribers a.initialValue
        (applySets ops a vs).value)[i]?
      = some (invokeGuarded sid cb a.initialValue (applySets ops a vs).value)
    unfold notifySubscribers
    rw [List.getElem?_map, hi]
    rfl

/-- C2 witness: on an atom whose current value already equals the initial
    value, a default reset still notifies the registered subscribers, each
    invocation carrying `(initialValue, previousValue)` — the 2-arity
    subscriber receives the pre-reset value `0` as its previous argument. -/
theorem reset_restores_initial_witness :
    ((none : Option Bool).getD true = true) ∧
    (resetA natOps (applySets natOps atomNoisy []) ⟨none, none⟩).atom.value = 0 ∧
    (resetA natOps (applySets natOps atomNoisy []) ⟨none, none⟩).notifications.map
        Notification.subId = [1, 2] ∧
    (resetA natOps (applySets natOps atomNoisy []) ⟨none, none⟩).notifications[1]?
        = some (invokeGuarded 2 cbOkTwo 0 0) :=
  ⟨rfl,
   (reset_restores_initial natOps atomNoisy [] ⟨none, none⟩ rfl).1,
   (reset_restores_initial natOps atomNoisy [] ⟨none, none⟩ rfl).2.1,
   (reset_restores_initial natOps atomNoisy [] ⟨none, none⟩ rfl).2.2.2 1 2 cbOkTwo rfl⟩

/-! ### C6 -/

/-- C6 counterexample: storage failures are not all caught and logged.  With
    the (synchronous) failing adapter, a persisted `value` assignment throws
    to the assigning caller — the unguarded fire-and-forget `setItem` — and
    a `getItem` failure during `hydrate` logs nothing at all. -/
theorem storage_write_throw_counterexample :
    (setValue natOps atomPersistFail 7).thrown ≠ none ∧
    (hydrateA natOps atomPersistFail).log = [] := by decide

/-- C6 (amended): delete failures in `reset` and parse failures in `hydrate`
    are caught and logged (the atom staying at its in-memory value), but a
    storage write failure during a persisted `value` assignment is *not*
    caught — it propagates to the assigning caller, after `_value` was
    already updated and before any subscriber is notified — and a read
    failure during `hydrate` is neither caught nor logged: it silently
    rejects the dangling hydrate promise. -/
theorem storage_failure_handling {V : Type} (ops : ValOps V) :
    (∀ (a : Atom V) (p : AtomPersistenceOptions) (e : String),
      a.persistence = some p →
      (p.storage.getD ops.localStorage).removeItem p.persistKey = Except.error e →
      (resetA ops a { resetValue := none, clearPersisted := none }).log
          = [LogEntry.errorClear p.persistKey] ∧
      (resetA ops a { resetValue := none, clearPersisted := none }).atom.value
          = a.initialValue) ∧
    (∀ (a : Atom V) (p : AtomPersistenceOptions) (s : String),
      a.persistence = some p →
      (p.storage.getD ops.localStorage).getItem p.persistKey = Except.ok (some s) →
      s ≠ "" →
      isErr (ops.deserialize s) = true →
      hydrateA ops a =
        { atom := a, writes := [], notifications := []
          log := [LogEntry.errorParse p.persistKey], rejected := none }) ∧
    (∀ (a : Atom V) (p : AtomPersistenceOptions) (e : String),
      a.persistence = some p →
      (p.storage.getD ops.localStorage).getItem p.persistKey = Except.error e →
      hydrateA ops a =
        { atom := a, writes := [], notifications := [], log := []
          rejected := some e }) ∧
    (∀ (a : Atom V) (p : AtomPersistenceOptions) (v : V) (e : String),
      a.persistence = some p →
      shouldSkipUpdate ops a v = false →
      ops.isUndef v = false →
      (p.storage.getD ops.localStorage).setItem p.persistKey (ops.serialize v)
          = Except.error e →
      (setValue ops a v).thrown = some e ∧
      (setValue ops a v).atom.value = v ∧
      (setValue ops a v).notifications = []) := by
  refine ⟨?_, ?_, ?_, ?_⟩
  · intro a p e hp hrm
    unfold resetA
    rw [hp]
    simp only [Option.getD_none, if_true, hrm]
    exact ⟨trivial, trivial⟩
  · intro a p s hp hget hs hparse
    unfold hydrateA
    rw [hp]
    dsimp only
    rw [hget]
    dsimp only
    have ht : truthyRaw (some s) = true := by simp [truthyRaw, hs]
    rw [ht]
    simp only [if_true, Option.getD_some]
    cases hd : ops.deserialize s with
    | error m => rfl
    | ok v => rw [hd] at hparse; simp [isErr] at hparse
  · intro a p e hp hget
    unfold hydrateA
    rw [hp]
    dsimp only
    rw [hget]
  · intro a p v e hp hskip hu hset
    have hps : persistStep ops a v = ([(p.persistKey, ops.serialize v)], some e) := by
      unfold persistStep
      rw [hp]
      dsimp only
      rw [hu]
      simp only [Bool.false_eq_true, if_false]
      rw [hset]
    unfold setValue
    rw [hskip]
    simp only [Bool.false_eq_true, if_false]
    rw [hps]
    exact ⟨rfl, rfl, rfl⟩

/-- C6 witness: the four storage-failure behaviours at concrete atoms. -/
theorem storage_failure_handling_witness :
    (resetA natOps atomPersistFail ⟨none, none⟩).log = [LogEntry.errorClear "k"] ∧
    hydrateA natOps atomBadParse =
      { atom := atomBadParse, writes := [], notifications := []
        log := [LogEntry.errorParse "k"], rejected := none } ∧
    hydrateA natOps atomPersistFail =
      { atom := atomPersistFail, writes := [], notifications := [], log := []
        rejected := some "storage read failed" } ∧
    (setValue natOps atomPersistFail 7).thrown = some "storage write failed" :=
  ⟨((storage_failure_handling natOps).1 atomPersistFail failPersist
      "storage delete failed" rfl rfl).1,
   (storage_failure_handling natOps).2.1 atomBadParse badParsePersist "x"
      rfl rfl (by decide) (by decide),
   (storage_failure_handling natOps).2.2.1 atomPersistFail failPersist
      "storage read failed" rfl rfl,
   ((storage_failure_handling natOps).2.2.2 atomPersistFail failPersist 7
      "storage write failed" rfl (by decide) rfl rfl).1⟩

/-! ### C7 -/

/-- C7: during notification of a completed value change, every subscriber is
    invoked inside its own exception guard: the notification list covers all
    subscribers in map order regardless of which callbacks throw, a throwing
    callback is marked logged (`invokeGuarded` absorbs exactly the throws of
    `runWithArity`), and the new value stays assigned. -/
theorem notify_isolates_subscriber_errors {V : Type} (ops : ValOps V)
    (a : Atom V) (v : V)
    (hskip : shouldSkipUpdate ops a v = false)
    (hthrown : (setValue ops a v).thrown = none) :
    (setValue ops a v).atom.value = v ∧
    (setValue ops a v).notifications.map Notification.subId
        = a.subscribers.map Prod.fst ∧
    (∀ (i : Nat) (sid : Nat) (cb : Callback V),
      a.subscribers[i]? = some (sid, cb) →
      (setValue ops a v).notifications[i]? = some (invokeGuarded sid cb v a.value)) ∧
    (∀ (sid : Nat) (cb : Callback V) (nv pv : V),
      (invokeGuarded sid cb nv pv).errorLogged = isErr (runWithArity cb nv pv)) := by
  have hnot := setValue_notifications_eq ops a v hskip hthrown
  refine ⟨?_, ?_, ?_, ?_⟩
  · rw [setValue_atom_value ops a v hskip]
  · rw [hnot, notifySubscribers_map_subId]
  · intro i sid cb hi
    rw [hnot]
    unfold notifySubscribers
    rw [List.getElem?_map, hi]
    rfl
  · intro sid cb nv pv
    rfl

/-- C7 witness: with a throwing first subscriber and a healthy second one,
    an assignment still updates the value and notifies both, flagging the
    first as logged. -/
theorem notify_isolates_subscriber_errors_witness :
    shouldSkipUpdate natOps atomNoisy 5 = false ∧
    (setValue natOps atomNoisy 5).thrown = none ∧
    (setValue natOps atomNoisy 5).atom.value = 5 ∧
    (setValue natOps atomNoisy 5).notifications.map Notification.subId = [1, 2] ∧
    (setValue natOps atomNoisy 5).notifications[0]?
        = some (invokeGuarded 1 cbBoom 5 0) ∧
    (invokeGuarded 1 cbBoom 5 0).errorLogged = true :=
  ⟨by decide, by decide,
   (notify_isolates_subscriber_errors natOps atomNoisy 5 (by decide) (by decide)).1,
   (notify_isolates_subscriber_errors natOps atomNoisy 5 (by decide) (by decide)).2.1,
   (notify_isolates_subscriber_errors natOps atomNoisy 5 (by decide) (by decide)).2.2.1
      0 1 cbBoom rfl,
   by decide⟩

/-! ### C10 -/

/-- C10: when `subscribe` is called with `immediate = true` and the callback
    throws on the current value, the exception propagates to the caller of
    `subscribe` (the immediate invocation is not inside the per-subscriber
    guard), yet the subscriber was already registered — its id is simply
    never returned. -/
theorem subscribe_immediate_propagates {V : Type} (a : Atom V) (subId : Nat)
    (cb : Callback V) (e : String)
    (h : cb.run a.value none = Except.error e) :
    (subscribeA a subId cb true).result = Except.error e ∧
    alookup (subscribeA a subId cb true).atom.subscribers subId = some cb := by
  unfold subscribeA
  simp only [if_true]
  rw [h]
  exact ⟨rfl, alookup_setEntry_self a.subscribers subId cb⟩

/-- C10 witness: a throwing immediate callback leaves the subscriber
    registered while `subscribe` throws. -/
theorem subscribe_immediate_propagates_witness :
    cbBoom.run atomZero.value none = Except.error "boom" ∧
    (subscribeA atomZero 1 cbBoom true).result = Except.error "boom" ∧
    alookup (subscribeA atomZero 1 cbBoom true).atom.subscribers 1 = some cbBoom :=
  ⟨rfl,
   (subscribe_immediate_propagates atomZero 1 cbBoom "boom" rfl).1,
   (subscribe_immediate_propagates atomZero 1 cbBoom "boom" rfl).2⟩

/-! ### Container (src/Container.ts) -/

theorem setEntry_setEntry_self {κ α : Type} [DecidableEq κ]
    (l : List (κ × α)) (k : κ) (v w : α) :
    setEntry (setEntry l k v) k w = setEntry l k w := by
  induction l with
  | nil => simp [setEntry]
  | cons hd tl ih =>
    by_cases h : hd.1 = k
    · simp [setEntry, h]
    · simp [setEntry, h, ih]

/-- `StoreRecord`: the held instance (identified by its allocation number)
    and its reference count. -/
structure StoreRecord where
  inst : Nat
  refCount : Nat
deriving DecidableEq

/-- The container's state: the `stores` map keyed by the (cached, stable)
    `storeId`, plus an allocation counter giving each constructed store
    instance a distinct identity. -/
structure ContainerState where
  stores : List (Nat × StoreRecord)
  nextInst : Nat
deriving DecidableEq

/-- `Container.instantiate`: warn if a record already exists, otherwise run
    the store constructor (allocating a fresh instance identity) and insert
    a record with `refCount := 0`. -/
def instantiateC (c : ContainerState) (storeId : Nat) :
    ContainerState × List LogEntry :=
  if (alookup c.stores storeId).isSome then
    (c, [LogEntry.warnStoreExists storeId])
  else
    ({ stores := setEntry c.stores storeId (StoreRecord.mk c.nextInst 0)
       nextInst := c.nextInst + 1 }, [])

/-- The tail of `Container.get` after the record is ensured: read the record
    (the source's `as StoreRecord` cast — its `none` arm is unreachable),
    re-`set` it with `refCount + 1`, and return its instance. -/
def containerGetAux (c1 : ContainerState) (storeId : Nat) : Nat × ContainerState :=
  match alookup c1.stores storeId with
  | some r =>
    (r.inst,
     { c1 with stores := setEntry c1.stores storeId (StoreRecord.mk r.inst (r.refCount + 1)) })
  | none => (0, c1)

/-- `Container.get`: instantiate on a miss, then increment and return. -/
def containerGet (c : ContainerState) (storeId : Nat) : Nat × ContainerState :=
  match alookup c.stores storeId with
  | some _ => containerGetAux c storeId
  | none => containerGetAux (instantiateC c storeId).1 storeId

/-- `Container.remove`: warn-and-`false` on a missing record; decrement when
    `refCount > 1`; otherwise call the instance's `destroy()` when present
    (the returned `List Nat` holds the destroyed instances) and delete the
    record — `Map.delete` returns `true` for the present key. -/
def containerRemove (c : ContainerState) (storeId : Nat) (hasDestroy : Bool) :
    Bool × ContainerState × List Nat × List LogEntry :=
  match alookup c.stores storeId with
  | none => (false, c, [], [LogEntry.warnStoreMissing storeId])
  | some r =>
    if r.refCount > 1 then
      (true,
       { c with stores := setEntry c.stores storeId (StoreRecord.mk r.inst (r.refCount - 1)) },
       [], [])
    else
      (true, { c with stores := eraseEntry c.stores storeId },
       if hasDestroy then [r.inst] else [], [])

theorem instantiateC_of_none (c : ContainerState) (storeId : Nat)
    (h : alookup c.stores storeId = none) :
    instantiateC c storeId =
      ({ stores := setEntry c.stores storeId (StoreRecord.mk c.nextInst 0)
         nextInst := c.nextInst + 1 }, []) := by
  unfold instantiateC
  rw [h]
  simp only [Option.isSome_none, Bool.false_eq_true, if_false]

theorem containerGet_of_some (c : ContainerState) (storeId : Nat)
    (r : StoreRecord) (h : alookup c.stores storeId = some r) :
    containerGet c storeId =
      (r.inst,
       { c with stores := setEntry c.stores storeId (StoreRecord.mk r.inst (r.refCount + 1)) })
      := by
  unfold containerGet containerGetAux
  rw [h]

theorem containerGet_of_none (c : ContainerState) (storeId : Nat)
    (h : alookup c.stores storeId = none) :
    containerGet c storeId =
      (c.nextInst,
       { stores := setEntry c.stores storeId (StoreRecord.mk c.nextInst 1)
         nextInst := c.nextInst + 1 }) := by
  unfold containerGet
  rw [h]
  dsimp only
  rw [instantiateC_of_none c storeId h]
  unfold containerGetAux
  dsimp only
  rw [alookup_setEntry_self]
  dsimp only
  rw [setEntry_setEntry_self]

theorem containerRemove_of_gt (c : ContainerState) (storeId : Nat)
    (hasDestroy : Bool) (r : StoreRecord)
    (h : alookup c.stores storeId = some r) (hgt : 1 < r.refCount) :
    containerRemove c storeId hasDestroy =
      (true,
       { c with stores := setEntry c.stores storeId (StoreRecord.mk r.inst (r.refCount - 1)) },
       [], []) := by
  unfold containerRemove
  rw [h]
  dsimp only
  rw [if_pos hgt]

theorem containerRemove_of_le (c : ContainerState) (storeId : Nat)
    (hasDestroy : Bool) (r : StoreRecord)
    (h : alookup c.stores storeId = some r) (hle : r.refCount ≤ 1) :
    containerRemove c storeId hasDestroy =
      (true, { c with stores := eraseEntry c.stores storeId },
       if hasDestroy then [r.inst] else [], []) := by
  unfold containerRemove
  rw [h]
  dsimp only
  rw [if_neg (by omega)]

/-- The observations of the get–get–remove–remove–get scenario: after each
    step, the returned instance / flag, the record under the key, and the
    `destroy()` calls issued. -/
structure RefcountTrace where
  inst1 : Nat
  rec1 : Option StoreRecord
  inst2 : Nat
  rec2 : Option StoreRecord
  ok1 : Bool
  rec3 : Option StoreRecord
  destroyed1 : List Nat
  ok2 : Bool
  rec4 : Option StoreRecord
  destroyed2 : List Nat
  inst3 : Nat
deriving DecidableEq

/-- Runs `get S; get S; remove S; remove S; get S` against the container and
    records the observable outcome of every step. -/
def refcountTrace (c : ContainerState) (storeId : Nat) (hasDestroy : Bool) :
    RefcountTrace :=
  let g1 := containerGet c storeId
  let g2 := containerGet g1.2 storeId
  let r1 := containerRemove g2.2 storeId hasDestroy
  let r2 := containerRemove r1.2.1 storeId hasDestroy
  let g3 := containerGet r2.2.1 storeId
  { inst1 := g1.1, rec1 := alookup g1.2.stores storeId
    inst2 := g2.1, rec2 := alookup g2.2.stores storeId
    ok1 := r1.1, rec3 := alookup r1.2.1.stores storeId, destroyed1 := r1.2.2.1
    ok2 := r2.1, rec4 := alookup r2.2.1.stores storeId, destroyed2 := r2.2.2.1
    inst3 := g3.1 }

/-- C3: `Container.get` on an existing record returns its instance and bumps
    `refCount` by one (so two sequential gets return the identical
    instance); `remove` with `refCount > 1` decrements and returns `true`
    leaving the instance alive; with `refCount ≤ 1` it destroys (when the
    instance has a `destroy`), deletes the record, and returns `true`; and
    from a state with no record, get–get–remove–remove–get yields the same
    instance twice, the matching removes, and then a brand-new instance. -/
theorem container_refcount (c : ContainerState) (storeId : Nat) (hasDestroy : Bool) :
    (∀ r : StoreRecord, alookup c.stores storeId = some r →
      containerGet c storeId =
        (r.inst,
         { c with stores := setEntry c.stores storeId (StoreRecord.mk r.inst (r.refCount + 1)) })) ∧
    (∀ r : StoreRecord, alookup c.stores storeId = some r → 1 < r.refCount →
      containerRemove c storeId hasDestroy =
        (true,
         { c with stores := setEntry c.stores storeId (StoreRecord.mk r.inst (r.refCount - 1)) },
         [], [])) ∧
    (∀ r : StoreRecord, alookup c.stores storeId = some r → r.refCount ≤ 1 →
      containerRemove c storeId hasDestroy =
        (true, { c with stores := eraseEntry c.stores storeId },
         if hasDestroy then [r.inst] else [], [])) ∧
    (alookup c.stores storeId = none →
      refcountTrace c storeId hasDestroy =
        { inst1 := c.nextInst, rec1 := some { inst := c.nextInst, refCount := 1 }
          inst2 := c.nextInst, rec2 := some { inst := c.nextInst, refCount := 2 }
          ok1 := true, rec3 := some { inst := c.nextInst, refCount := 1 }
          destroyed1 := []
          ok2 := true, rec4 := none
          destroyed2 := if hasDestroy then [c.nextInst] else []
          inst3 := c.nextInst + 1 } ∧
      c.nextInst + 1 ≠ c.nextInst) := by
  refine ⟨?_, ?_, ?_, ?_⟩
  · intro r hr
    exact containerGet_of_some c storeId r hr
  · intro r hr hgt
    exact containerRemove_of_gt c storeId hasDestroy r hr hgt
  · intro r hr hle
    exact containerRemove_of_le c storeId hasDestroy r hr hle
  · intro h0
    refine ⟨?_, Nat.succ_ne_self c.nextInst⟩
    have l1 : alookup
        (setEntry c.stores storeId (StoreRecord.mk c.nextInst 1)) storeId
        = some (StoreRecord.mk c.nextInst 1) :=
      alookup_setEntry_self _ _ _
    have l2 : alookup
        (setEntry c.stores storeId (StoreRecord.mk c.nextInst 2)) storeId
        = some (StoreRecord.mk c.nextInst 2) :=
      alookup_setEntry_self _ _ _
    have l4 : alookup
        (eraseEntry (setEntry c.stores storeId (StoreRecord.mk c.nextInst 1))
          storeId) storeId = none :=
      alookup_eraseEntry_self _ _
    have e1 := containerGet_of_none c storeId h0
    have e2 : containerGet
        ({ stores := setEntry c.stores storeId (StoreRecord.mk c.nextInst 1)
           nextInst := c.nextInst + 1 } : ContainerState) storeId
        = (c.nextInst,
           { stores := setEntry c.stores storeId (StoreRecord.mk c.nextInst 2)
             nextInst := c.nextInst + 1 }) := by
      rw [containerGet_of_some _ storeId (StoreRecord.mk c.nextInst 1) l1]
      dsimp only
      rw [setEntry_setEntry_self]
    have e3 : containerRemove
        ({ stores := setEntry c.stores storeId (StoreRecord.mk c.nextInst 2)
           nextInst := c.nextInst + 1 } : ContainerState) storeId hasDestroy
        = (true,
           { stores := setEntry c.stores storeId (StoreRecord.mk c.nextInst 1)
             nextInst := c.nextInst + 1 }, [], []) := by
      rw [containerRemove_of_gt _ storeId hasDestroy
        (StoreRecord.mk c.nextInst 2) l2 (by exact Nat.one_lt_two)]
      dsimp only
      rw [setEntry_setEntry_self]
    have e4 : containerRemove
        ({ stores := setEntry c.stores storeId (StoreRecord.mk c.nextInst 1)
           nextInst := c.nextInst + 1 } : ContainerState) storeId hasDestroy
        = (true,
           { stores := eraseEntry (setEntry c.stores storeId (StoreRecord.mk c.nextInst 1)) storeId
             nextInst := c.nextInst + 1 },
           if hasDestroy then [c.nextInst] else [], []) := by
      rw [containerRemove_of_le _ storeId hasDestroy
        (StoreRecord.mk c.nextInst 1) l1 (by exact Nat.le_refl 1)]
    have e5 : containerGet
        ({ stores := eraseEntry (setEntry c.stores storeId (StoreRecord.mk c.nextInst 1)) storeId
           nextInst := c.nextInst + 1 } : ContainerState) storeId
        = (c.nextInst + 1,
           { stores := setEntry (eraseEntry (setEntry c.stores storeId (StoreRecord.mk c.nextInst 1)) storeId) storeId (StoreRecord.mk (c.nextInst + 1) 1)
             nextInst := c.nextInst + 1 + 1 }) :=
      containerGet_of_none _ storeId l4
    unfold refcountTrace
    rw [e1]
    dsimp only
    rw [e2]
    dsimp only
    rw [e3]
    dsimp only
    rw [e4]
    dsimp only
    rw [e5]
    dsimp only
    rw [l1, l2, l4]

/-- C3 witness: the scenario from the empty container with a
    `destroy`-capable store class. -/
theorem container_refcount_witness :
    containerGet (ContainerState.mk [(7, StoreRecord.mk 3 1)] 4) 7
        = (3, ContainerState.mk [(7, StoreRecord.mk 3 2)] 4) ∧
    refcountTrace (ContainerState.mk [] 0) 7 true =
      { inst1 := 0, rec1 := some { inst := 0, refCount := 1 }
        inst2 := 0, rec2 := some { inst := 0, refCount := 2 }
        ok1 := true, rec3 := some { inst := 0, refCount := 1 }
        destroyed1 := []
        ok2 := true, rec4 := none, destroyed2 := [0]
        inst3 := 1 } :=
  ⟨(container_refcount (ContainerState.mk [(7, StoreRecord.mk 3 1)] 4) 7 true).1
      (StoreRecord.mk 3 1) rfl,
   (((container_refcount (ContainerState.mk [] 0) 7 true).2.2.2 rfl).1)⟩

/-! ### C8: the Container singleton guard -/

/-- The `Container` constructor guard: `Container.instance` is assigned by
    the class's own static initializer, so any later direct `new Container()`
    sees `instanceExists = true` and throws; the static initialization
    itself ran with the field still unset and succeeded. -/
def containerConstructor (instanceExists : Bool) : Except String Unit :=
  if instanceExists then
    Except.error "Instantiation failed. Use Container.getInstance() instead."
  else
    Except.ok ()

/-- C8 counterexample: the singleton guard is not the only condition under
    which a core operation throws back to its caller — `subscribe` with an
    immediate, throwing callback also throws to its caller. -/
theorem guard_not_only_throw_counterexample :
    isErr (subscribeA atomZero 1 cbBoom true).result = true := by decide

/-- C8 (amended): directly constructing a second Container (bypassing
    `getInstance`) throws and aborts the construction, while the module's
    own static initialization — running before the instance exists —
    succeeds; however this guard is *not* the only condition under which a
    core operation throws back to its caller: an exception raised by an
    immediate subscribe callback also propagates to `subscribe`'s caller
    (and an unguarded synchronous storage write failure propagates out of a
    persisted `value` assignment). -/
theorem container_singleton_guard :
    containerConstructor false = Except.ok () ∧
    isErr (containerConstructor true) = true ∧
    isErr (subscribeA atomZero 2 cbBoom true).result = true :=
  ⟨rfl, rfl, rfl⟩

/-! ### C9: the store proxy (src/utils.ts getStoreProxy) -/

/-- An own property of a store instance, as the proxy `get` trap classifies
    them: a function-valued member, an `Atom` member, or anything else. -/
inductive StoreField (V : Type) where
  | method (call : V → V)
  | atomField (a : Atom V)
  | plain (v : V)

/-- A store instance as seen by the proxy: its own enumerable fields. -/
structure StoreObj (V : Type) where
  fields : List (String × StoreField V)

/-- What a proxy property read yields. -/
inductive ProxyRead (V : Type) where
  | boundMethod (call : V → V)
  | atomValue (v : V)
  | undef

/-- The proxy `get` trap: own-property check, then function members are
    returned bound to the instance, `Atom` members yield their current
    value, and everything else yields `undefined`. -/
def proxyGet {V : Type} (s : StoreObj V) (key : String) : ProxyRead V :=
  match alookup s.fields key with
  | some (StoreField.method f) => ProxyRead.boundMethod f
  | some (StoreField.atomField a) => ProxyRead.atomValue a.value
  | some (StoreField.plain _) => ProxyRead.undef
  | none => ProxyRead.undef

/-- Result of running the proxy `set` trap. -/
structure TrapOutcome (V : Type) where
  store : StoreObj V
  log : List LogEntry
  accepted : Bool

/-- The proxy `set` trap: logs
    `Cannot modify store values directly. Use store methods instead.` and
    returns `false`, never touching the target store. -/
def proxySetTrap {V : Type} (s : StoreObj V) (_k : String) (_v : V) :
    TrapOutcome V :=
  { store := s, log := [LogEntry.warnProxySet], accepted := false }

/-- Result of a property assignment performed through the proxy. -/
structure AssignOutcome (V : Type) where
  store : StoreObj V
  log : List LogEntry
  threw : Bool

/-- A JavaScript property assignment through the proxy: the `set` trap runs;
    because the trap reports `false`, a strict-mode assigner (all ES-module
    code — the repository's own test asserts
    `expect(() => proxy.count = 99).toThrow('set')`) receives a TypeError at
    the assignment site, while a sloppy-mode assigner continues silently. -/
def proxyAssign {V : Type} (s : StoreObj V) (key : String) (v : V)
    (strictCaller : Bool) : AssignOutcome V :=
  { store := (proxySetTrap s key v).store
    log := (proxySetTrap s key v).log
    threw := strictCaller && !(proxySetTrap s key v).accepted }

def storeObjCount : StoreObj Nat :=
  { fields := [("count", StoreField.atomField atomFive)] }

/-- C9 counterexample: an assignment through the proxy from strict-mode
    caller code (the situation the repository's own test exercises) throws
    a TypeError to the assigning caller. -/
theorem proxy_assign_throws_counterexample :
    (proxyAssign storeObjCount "count" 99 true).threw = true := rfl

/-- C9 (amended): every property assignment through the store proxy leaves
    the underlying store instance completely unchanged (reads through the
    proxy are unaffected), logs the warning, and is rejected rather than
    applied — the trap itself completes, returning `false`, instead of
    raising; but precisely because the trap returns `false`, a strict-mode
    assigning caller receives a TypeError, so the assignment is throw-free
    only for sloppy-mode callers. -/
theorem proxy_set_rejects_writes {V : Type} (s : StoreObj V) (key : String)
    (v : V) (strictCaller : Bool) :
    proxySetTrap s key v
        = { store := s, log := [LogEntry.warnProxySet], accepted := false } ∧
    (proxyAssign s key v strictCaller).store = s ∧
    (proxyAssign s key v strictCaller).log = [LogEntry.warnProxySet] ∧
    (proxyAssign s key v strictCaller).threw = strictCaller ∧
    (∀ k : String, proxyGet (proxyAssign s key v strictCaller).store k
        = proxyGet s k) := by
  refine ⟨rfl, rfl, rfl, ?_, fun k => rfl⟩
  cases strictCaller <;> rfl

/-! ### Derivations (Store.deriveAtom, src/Store.ts) -/

theorem persistStep_of_no_persistence {V : Type} (ops : ValOps V) (a : Atom V)
    (v : V) (h : a.persistence = none) : persistStep ops a v = ([], none) := by
  unfold persistStep
  rw [h]

theorem setValue_skip_eq {V : Type} (ops : ValOps V) (a : Atom V) (v : V)
    (h : shouldSkipUpdate ops a v = true) :
    setValue ops a v =
      { atom := a, writes := [], notifications := [], thrown := none } := by
  unfold setValue
  rw [h]
  simp

/-- A derivation as wired by `Store.deriveAtom`: the ordered source atoms,
    the pure transformer over their unwrapped values (source values listed
    in source order), and the internal derived atom.  The
    `computedValueCallback` subscribed on every source atom is represented
    structurally by `stepSetSource` below. -/
structure DerivedSystem (V : Type) where
  sources : List (Atom V)
  transformer : List V → V
  derived : Atom V

/-- `getDerivedValue`: read all source atoms' current values, in source
    order, and apply the transformer. -/
def getDerivedValue {V : Type} (sys : DerivedSystem V) : V :=
  sys.transformer (sys.sources.map Atom.value)

/-- `Store.deriveAtom`: the derived atom is constructed from the initial
    `getDerivedValue()` with the given memoization options and no
    persistence, and `computedValueCallback` is subscribed on every source
    (via `watchAtom`, hence tracked by the owning store). -/
def deriveAtomD {V : Type} (sources : List (Atom V)) (transformer : List V → V)
    (memoization : Option (AtomMemoizationOptions V)) : DerivedSystem V :=
  { sources := sources
    transformer := transformer
    derived := mkAtom (transformer (sources.map Atom.value)) none memoization }

/-- One external mutation of source `i` together with the reaction
    `deriveAtom` wired to it: the source's `value` setter runs; if it does
    not skip and its persistence block does not throw, its subscribers —
    among them the `computedValueCallback` — run: the callback re-reads
    *all* source atoms' current values, reapplies the transformer, and
    assigns the result through the derived atom's normal `value` setter
    (whose own comparator gates the derived notifications, returned here). -/
def stepSetSource {V : Type} (ops : ValOps V) (sys : DerivedSystem V) (i : Nat)
    (v : V) : DerivedSystem V × List (Notification V) :=
  match sys.sources[i]? with
  | none => (sys, [])
  | some src =>
    if shouldSkipUpdate ops src v then (sys, [])
    else
      match (setValue ops src v).thrown with
      | some _ =>
        ({ sys with sources := sys.sources.set i (setValue ops src v).atom }, [])
      | none =>
        ({ sources := sys.sources.set i (setValue ops src v).atom
           transformer := sys.transformer
           derived := (setValue ops sys.derived (sys.transformer ((sys.sources.set i (setValue ops src v).atom).map Atom.value))).atom },
         (setValue ops sys.derived (sys.transformer ((sys.sources.set i (setValue ops src v).atom).map Atom.value))).notifications)

/-- C4: a derivation's initial value equals the transformer applied to the
    sources' current values in source order (the derived atom starting with
    no subscribers and no persistence); and whenever a source atom notifies
    (its setter neither skipped nor threw), the recompute callback re-reads
    all source atoms' current values — not just the changed one — reapplies
    the transformer, and assigns the result through the derived atom's
    normal setter, so the derived atom's own comparator decides whether its
    subscribers are notified. -/
theorem derive_recomputes_all_sources {V : Type} (ops : ValOps V) :
    (∀ (sources : List (Atom V)) (transformer : List V → V)
        (memoization : Option (AtomMemoizationOptions V)),
      (deriveAtomD sources transformer memoization).derived.value
          = transformer (sources.map Atom.value) ∧
      (deriveAtomD sources transformer memoization).derived.subscribers = [] ∧
      (deriveAtomD sources transformer memoization).derived.persistence = none) ∧
    (∀ (sys : DerivedSystem V) (i : Nat) (v : V) (src : Atom V),
      sys.sources[i]? = some src →
      shouldSkipUpdate ops src v = false →
      (setValue ops src v).thrown = none →
      sys.derived.persistence = none →
      ((stepSetSource ops sys i v).1.sources
          = sys.sources.set i { src with value := v }) ∧
      (shouldSkipUpdate ops sys.derived
            (sys.transformer ((sys.sources.set i { src with value := v }).map Atom.value)) = true →
        (stepSetSource ops sys i v).1.derived = sys.derived ∧
        (stepSetSource ops sys i v).2 = []) ∧
      (shouldSkipUpdate ops sys.derived
            (sys.transformer ((sys.sources.set i { src with value := v }).map Atom.value)) = false →
        (stepSetSource ops sys i v).1.derived.value
            = sys.transformer ((sys.sources.set i { src with value := v }).map Atom.value) ∧
        (stepSetSource ops sys i v).2.map Notification.subId
            = sys.derived.subscribers.map Prod.fst ∧
        ∀ n ∈ (stepSetSource ops sys i v).2,
          n.value = sys.transformer
            ((sys.sources.set i { src with value := v }).map Atom.value))) := by
  constructor
  · intro sources transformer memoization
    exact ⟨rfl, rfl, rfl⟩
  · intro sys i v src hi hskip hthrown hdp
    have hsrc : (setValue ops src v).atom = { src with value := v } :=
      setValue_atom_value ops src v hskip
    unfold stepSetSource
    rw [hi]
    dsimp only
    rw [hskip]
    simp only [Bool.false_eq_true, if_false]
    rw [hthrown]
    dsimp only
    rw [hsrc]
    refine ⟨rfl, ?_, ?_⟩
    · intro hds
      rw [setValue_skip_eq ops sys.derived _ hds]
      exact ⟨rfl, rfl⟩
    · intro hds
      rw [setValue_eq_of_none ops sys.derived _ hds
        (by rw [persistStep_of_no_persistence ops sys.derived _ hdp])]
      refine ⟨rfl, ?_, ?_⟩
      · exact notifySubscribers_map_subId _ _ _
      · intro n hn
        exact notifySubscribers_value_of_mem _ _ _ n hn

def srcOne : Atom Nat := mkAtom 1 none none

def srcZero : Atom Nat := mkAtom 0 none none

/-- The spec's derivation scenario `f(a, b) = a > 0 && b`, with `false`
    encoded as `0` and `true` as `1`. -/
def andGate (vs : List Nat) : Nat :=
  if 0 < vs.getD 0 0 ∧ vs.getD 1 0 = 1 then 1 else 0

def sysAB : DerivedSystem Nat := deriveAtomD [srcOne, srcZero] andGate none

/-- C4 witness: with sources `a = 1, b = false` and `f(a,b) = a > 0 && b`,
    the initial derived value is `false`; setting `b := true` recomputes
    from both sources and yields derived `true`. -/
theorem derive_recomputes_all_sources_witness :
    (deriveAtomD [srcOne, srcZero] andGate none).derived.value = 0 ∧
    sysAB.sources[1]? = some srcZero ∧
    shouldSkipUpdate natOps srcZero 1 = false ∧
    (stepSetSource natOps sysAB 1 1).1.derived.value = 1 := by
  refine ⟨?_, rfl, by decide, ?_⟩
  · exact ((derive_recomputes_all_sources natOps).1 [srcOne, srcZero] andGate none).1
  · exact (((derive_recomputes_all_sources natOps).2 sysAB 1 1 srcZero rfl
      (by decide) (by decide) rfl).2.2 (by decide)).1

/-! ### Store subscription teardown (Store.destroy, src/Store.ts) -/

/-- The world of atoms a store's subscriptions refer to, keyed by an atom
    identity (modelling the `atom.unsubscribe` closure each table entry
    holds a reference to). -/
structure World (V : Type) where
  atoms : List (Nat × Atom V)

/-- A store's private `subscriptions` map: `subId ↦` the atom whose bound
    `unsubscribe` was recorded for that id by `watchAtom`. -/
structure StoreSubs where
  entries : List (Nat × Nat)

/-- `Store.watchAtom`: subscribe the callback on the atom and record the
    returned id together with the atom's `unsubscribe` in the store's
    subscription table. -/
def watchAtomW {V : Type} (w : World V) (st : StoreSubs) (atomKey subId : Nat)
    (cb : Callback V) (immediate : Bool) : World V × StoreSubs :=
  match alookup w.atoms atomKey with
  | none => (w, st)
  | some a =>
    (World.mk (setEntry w.atoms atomKey (subscribeA a subId cb immediate).atom),
     StoreSubs.mk (setEntry st.entries subId atomKey))

/-- One iteration of the `Store.destroy` loop: `unsubscribe(subId)` on the
    recorded atom (and the table entry is deleted). -/
def destroyStep {V : Type} (w : World V) (e : Nat × Nat) : World V :=
  match alookup w.atoms e.2 with
  | none => w
  | some a => World.mk (setEntry w.atoms e.2 (unsubscribeA a e.1).atom)

/-- `Store.destroy` (subscription part): every entry of the subscription
    table is unsubscribed from its atom and the table is cleared. -/
def destroyStoreSubs {V : Type} (w : World V) (st : StoreSubs) :
    World V × StoreSubs :=
  (st.entries.foldl destroyStep w, StoreSubs.mk [])

/-- Whether the atom stored under `atomKey` currently has a subscriber with
    id `subId`. -/
def hasSub {V : Type} (w : World V) (subId atomKey : Nat) : Bool :=
  match alookup w.atoms atomKey with
  | none => false
  | some a => (alookup a.subscribers subId).isSome

/-- A `value` assignment on the atom under `atomKey`, with the delivered
    notifications. -/
def applyWorldSet {V : Type} (ops : ValOps V) (w : World V) (atomKey : Nat)
    (v : V) : World V × List (Notification V) :=
  match alookup w.atoms atomKey with
  | none => (w, [])
  | some a =>
    (World.mk (setEntry w.atoms atomKey (setValue ops a v).atom),
     (setValue ops a v).notifications)

/-- A sequence of `value` assignments, collecting every notification. -/
def applyWorldSets {V : Type} (ops : ValOps V) :
    World V → List (Nat × V) → World V × List (Notification V)
  | w, [] => (w, [])
  | w, (k, v) :: rest =>
    ((applyWorldSets ops (applyWorldSet ops w k v).1 rest).1,
     (applyWorldSet ops w k v).2 ++ (applyWorldSets ops (applyWorldSet ops w k v).1 rest).2)

theorem alookup_eraseEntry_isSome_mono {κ α : Type} [DecidableEq κ]
    (l : List (κ × α)) (k k' : κ)
    (h : (alookup (eraseEntry l k) k').isSome = true) :
    (alookup l k').isSome = true := by
  by_cases hk : k = k'
  · rw [hk, alookup_eraseEntry_self] at h
    simp at h
  · rwa [alookup_eraseEntry_ne l k k' hk] at h

theorem unsubscribeA_subscribers_mono {V : Type} (a : Atom V) (s sid : Nat)
    (h : (alookup (unsubscribeA a s).atom.subscribers sid).isSome = true) :
    (alookup a.subscribers sid).isSome = true := by
  unfold unsubscribeA at h
  split at h
  · exact alookup_eraseEntry_isSome_mono a.subscribers s sid h
  · exact h

theorem unsubscribeA_removes {V : Type} (a : Atom V) (s : Nat) :
    alookup (unsubscribeA a s).atom.subscribers s = none := by
  unfold unsubscribeA
  split
  · exact alookup_eraseEntry_self a.subscribers s
  · next hsome =>
    rw [Bool.not_eq_true] at hsome
    cases h2 : alookup a.subscribers s with
    | none => rfl
    | some c => rw [h2] at hsome; simp at hsome

theorem destroyStep_mono {V : Type} (w : World V) (e : Nat × Nat)
    (sid k : Nat) (h : hasSub (destroyStep w e) sid k = true) :
    hasSub w sid k = true := by
  unfold destroyStep at h
  cases he : alookup w.atoms e.2 with
  | none => rw [he] at h; exact h
  | some a =>
    rw [he] at h
    dsimp only at h
    unfold hasSub at h ⊢
    by_cases hk : e.2 = k
    · subst hk
      rw [alookup_setEntry_self] at h
      rw [he]
      exact unsubscribeA_subscribers_mono a e.1 sid h
    · rw [alookup_setEntry_ne w.atoms e.2 k _ hk] at h
      exact h

theorem foldl_destroyStep_false {V : Type} (l : List (Nat × Nat)) (w : World V)
    (sid k : Nat) (h : hasSub w sid k = false) :
    hasSub (l.foldl destroyStep w) sid k = false := by
  induction l generalizing w with
  | nil => exact h
  | cons e rest ih =>
    rw [List.foldl_cons]
    refine ih (destroyStep w e) ?_
    by_cases hstep : hasSub (destroyStep w e) sid k = true
    · rw [destroyStep_mono w e sid k hstep] at h
      exact absurd h (by simp)
    · rwa [Bool.not_eq_true] at hstep

theorem destroyStep_clears_own {V : Type} (w : World V) (sid aid : Nat) :
    hasSub (destroyStep w (sid, aid)) sid aid = false := by
  unfold destroyStep
  dsimp only
  cases he : alookup w.atoms aid with
  | none =>
    unfold hasSub
    rw [he]
  | some a =>
    dsimp only
    unfold hasSub
    rw [alookup_setEntry_self]
    dsimp only
    rw [unsubscribeA_removes a sid]
    rfl

theorem foldl_destroyStep_mem_false {V : Type} (l : List (Nat × Nat))
    (w : World V) (sid aid : Nat) (h : (sid, aid) ∈ l) :
    hasSub (l.foldl destroyStep w) sid aid = false := by
  induction l generalizing w with
  | nil => simp at h
  | cons e rest ih =>
    rw [List.foldl_cons]
    rcases List.mem_cons.mp h with heq | hmem
    · rw [← heq]
      exact foldl_destroyStep_false rest (destroyStep w (sid, aid)) sid aid
        (destroyStep_clears_own w sid aid)
    · exact ih (destroyStep w e) hmem

theorem applyWorldSet_hasSub {V : Type} (ops : ValOps V) (w : World V)
    (k : Nat) (v : V) (sid k' : Nat) :
    hasSub (applyWorldSet ops w k v).1 sid k' = hasSub w sid k' := by
  unfold applyWorldSet
  cases he : alookup w.atoms k with
  | none => rfl
  | some a =>
    dsimp only
    unfold hasSub
    by_cases hk : k = k'
    · subst hk
      rw [alookup_setEntry_self, he]
      dsimp only
      rw [setValue_atom_subscribers]
    · rw [alookup_setEntry_ne w.atoms k k' _ hk]

theorem applyWorldSet_notifications_hasSub {V : Type} (ops : ValOps V)
    (w : World V) (k : Nat) (v : V) (n : Notification V)
    (h : n ∈ (applyWorldSet ops w k v).2) :
    hasSub w n.subId k = true := by
  unfold applyWorldSet at h
  cases he : alookup w.atoms k with
  | none => rw [he] at h; simp at h
  | some a =>
    rw [he] at h
    dsimp only at h
    unfold hasSub
    rw [he]
    exact setValue_notifications_subId ops a v n h

theorem applyWorldSets_no_silenced {V : Type} (ops : ValOps V)
    (muts : List (Nat × V)) (w : World V) (sid : Nat)
    (h : ∀ k, hasSub w sid k = false) :
    ∀ n ∈ (applyWorldSets ops w muts).2, n.subId ≠ sid := by
  induction muts generalizing w with
  | nil => intro n hn; simp [applyWorldSets] at hn
  | cons e rest ih =>
    intro n hn
    rcases e with ⟨k, v⟩
    unfold applyWorldSets at hn
    rcases List.mem_append.mp hn with hhd | htl
    · intro hcontra
      have := applyWorldSet_notifications_hasSub ops w k v n hhd
      rw [hcontra, h k] at this
      exact absurd this (by simp)
    · exact ih (applyWorldSet ops w k v).1
        (fun k' => by rw [applyWorldSet_hasSub]; exact h k') n htl

/-- C5: after `Store.destroy` returns, the store's subscription table is
    empty and every recorded subscription id has been removed from its atom
    (given that subscription ids are globally unique, as `nanoid` ids are);
    consequently no sequence of later `value` assignments anywhere in the
    world ever delivers a notification to one of the store's subscription
    ids — the store's watch callbacks and derivation recomputes never fire
    again. -/
theorem destroy_severs_all_subscriptions {V : Type} (ops : ValOps V)
    (w : World V) (st : StoreSubs)
    (huniq : ∀ sid aid, (sid, aid) ∈ st.entries →
      ∀ k, k ≠ aid → hasSub w sid k = false) :
    (destroyStoreSubs w st).2.entries = [] ∧
    (∀ sid aid, (sid, aid) ∈ st.entries →
      ∀ k, hasSub (destroyStoreSubs w st).1 sid k = false) ∧
    (∀ muts : List (Nat × V), ∀ sid aid, (sid, aid) ∈ st.entries →
      ∀ n ∈ (applyWorldSets ops (destroyStoreSubs w st).1 muts).2,
        n.subId ≠ sid) := by
  have hkilled : ∀ sid aid, (sid, aid) ∈ st.entries →
      ∀ k, hasSub (destroyStoreSubs w st).1 sid k = false := by
    intro sid aid hmem k
    by_cases hk : k = aid
    · subst hk
      exact foldl_destroyStep_mem_false st.entries w sid k hmem
    · exact foldl_destroyStep_false st.entries w sid k (huniq sid aid hmem k hk)
  refine ⟨rfl, hkilled, ?_⟩
  intro muts sid aid hmem
  exact applyWorldSets_no_silenced ops muts (destroyStoreSubs w st).1 sid
    (fun k => hkilled sid aid hmem k)

/-- An atom being watched by a store through subscription id 1. -/
def atomWatched : Atom Nat :=
  { value := 0, initialValue := 0
    subscribers := [(1, cbOkTwo)]
    persistence := none, memoization := none }

def worldOne : World Nat := World.mk [(10, atomWatched)]

def storeSubsOne : StoreSubs := StoreSubs.mk [(1, 10)]

/-- C5 witness: destroying the store with table `{1 ↦ atom 10}` clears the
    table, removes subscriber 1 from atom 10, and a subsequent assignment
    to atom 10 delivers no notification at all. -/
theorem destroy_severs_all_subscriptions_witness :
    (destroyStoreSubs worldOne storeSubsOne).2.entries = [] ∧
    hasSub (destroyStoreSubs worldOne storeSubsOne).1 1 10 = false ∧
    (applyWorldSets natOps (destroyStoreSubs worldOne storeSubsOne).1
        [(10, 5)]).2 = [] := by
  have hu : ∀ sid aid, (sid, aid) ∈ storeSubsOne.entries →
      ∀ k, k ≠ aid → hasSub worldOne sid k = false := by
    intro sid aid hmem k hk
    have h2 : aid = 10 := by
      simp [storeSubsOne] at hmem
      exact hmem.2
    have h10 : ¬ ((10 : Nat) = k) := fun h => hk (by rw [h2, ← h])
    simp [hasSub, worldOne, alookup, h10]
  refine ⟨(destroy_severs_all_subscriptions natOps worldOne storeSubsOne hu).1,
          (destroy_severs_all_subscriptions natOps worldOne storeSubsOne hu).2.1
            1 10 (by decide) 10,
          rfl⟩

end Nucleux
